import Mathlib

/-!
# Verification of the eput-tools C codec (`src/eputgen/c/eput_utils.c`)

A shallow embedding of the byte codec, TLV scanner, NDEF record decoder,
message decoder and bitmap checker of `eput_utils.c`, together with theorems
settling the specification's claims about them.

Modelling conventions:
* A C byte buffer (`uint8_t *buf` with `size_t buf_len`) is a `List Nat`
  whose elements are the byte values; `buf_len` is `buf.length`.
* Machine integers are `Nat` (unsigned) or `Int` (signed) with explicit
  wrap-arounds (`% 2^w`, `wrap<w>`) exactly where the C arithmetic wraps.
* A buffer read `buf[i]` that the surrounding C code has proven in bounds is
  modelled with `List.getD`; a read that may be out of bounds is modelled with
  `List.get?`, and a whole function that can perform an out-of-bounds access
  returns `Option`: a `none` result means the C code read past the buffer end
  (undefined behaviour).
* C pointers into the buffer (`record->type` etc.) are modelled as offsets
  into the buffer; the C `NULL` pointer is `Option.none`.
-/

namespace EputUtils

/-! ## Two's-complement wrapping

`wrap<w> x` is the unique integer congruent to `x` modulo `2^w` lying in
`[-2^(w-1), 2^(w-1))`: the value a C `int<w>_t` holds after a narrowing
conversion / overflowing arithmetic on a two's-complement machine. -/

def wrap8 (x : Int) : Int := (x + 128) % 256 - 128

def wrap16 (x : Int) : Int := (x + 32768) % 65536 - 32768

def wrap32 (x : Int) : Int := (x + 2147483648) % 4294967296 - 2147483648

def wrap64 (x : Int) : Int :=
  (x + 9223372036854775808) % 18446744073709551616 - 9223372036854775808

/-- The C cast `(uint8_t) val` applied to a signed value: reduce modulo 256. -/
def toByte (x : Int) : Nat := (x % 256).toNat

/-- The C conversion of a `uint32_t` value to `int` (the type of
`get_record`'s return value): two's-complement reinterpretation. -/
def uint32ToInt (n : Nat) : Int :=
  if n < 2147483648 then (n : Int) else (n : Int) - 4294967296

/-! ## Primitive codec (`bytes_to_*` / `*_to_bytes`, eput_utils.c lines 11-237)

Unsigned decoders follow the C shift-and-add on promoted unsigned arithmetic;
the final `% 2^w` is the width of the C result type (the sum of the shifted
bytes never actually exceeds it when the inputs are bytes).  Encoders emit
`(uint8_t)(val >> k)` for the fixed shifts of the source. -/

def bytes_to_uint8 (bytes : List Nat) : Nat :=
  bytes.getD 0 0

def bytes_to_uint16 (bytes : List Nat) : Nat :=
  (bytes.getD 0 0 * 256 + bytes.getD 1 0) % 65536

def bytes_to_uint32 (bytes : List Nat) : Nat :=
  (bytes.getD 0 0 * 16777216 + bytes.getD 1 0 * 65536 +
   bytes.getD 2 0 * 256 + bytes.getD 3 0) % 4294967296

def bytes_to_uint64 (bytes : List Nat) : Nat :=
  (bytes.getD 0 0 * 72057594037927936 + bytes.getD 1 0 * 281474976710656 +
   bytes.getD 2 0 * 1099511627776 + bytes.getD 3 0 * 4294967296 +
   bytes.getD 4 0 * 16777216 + bytes.getD 5 0 * 65536 +
   bytes.getD 6 0 * 256 + bytes.getD 7 0) % 18446744073709551616

def uint8_to_bytes (val : Nat) : List Nat :=
  [val % 256]

def uint16_to_bytes (val : Nat) : List Nat :=
  [val / 256 % 256, val % 256]

def uint32_to_bytes (val : Nat) : List Nat :=
  [val / 16777216 % 256, val / 65536 % 256, val / 256 % 256, val % 256]

def uint64_to_bytes (val : Nat) : List Nat :=
  [val / 72057594037927936 % 256, val / 281474976710656 % 256,
   val / 1099511627776 % 256, val / 4294967296 % 256,
   val / 16777216 % 256, val / 65536 % 256, val / 256 % 256, val % 256]

/-- `bytes_to_int8`: `return (int8_t) *bytes;` — the byte reinterpreted as a
signed 8-bit value. -/
def bytes_to_int8 (bytes : List Nat) : Int :=
  wrap8 (bytes.getD 0 0)

/-- `bytes_to_int16`: `i += bytes[0]; i <<= 8; i += bytes[1]`, every step an
`int16_t` assignment (hence a `wrap16`). -/
def bytes_to_int16 (bytes : List Nat) : Int :=
  let i : Int := 0
  let i := wrap16 (i + bytes.getD 0 0)
  let i := wrap16 (i * 256)
  let i := wrap16 (i + bytes.getD 1 0)
  i

def bytes_to_int32 (bytes : List Nat) : Int :=
  let i : Int := 0
  let i := wrap32 (i + bytes.getD 0 0)
  let i := wrap32 (i * 256)
  let i := wrap32 (i + bytes.getD 1 0)
  let i := wrap32 (i * 256)
  let i := wrap32 (i + bytes.getD 2 0)
  let i := wrap32 (i * 256)
  let i := wrap32 (i + bytes.getD 3 0)
  i

def bytes_to_int64 (bytes : List Nat) : Int :=
  let i : Int := 0
  let i := wrap64 (i + bytes.getD 0 0)
  let i := wrap64 (i * 256)
  let i := wrap64 (i + bytes.getD 1 0)
  let i := wrap64 (i * 256)
  let i := wrap64 (i + bytes.getD 2 0)
  let i := wrap64 (i * 256)
  let i := wrap64 (i + bytes.getD 3 0)
  let i := wrap64 (i * 256)
  let i := wrap64 (i + bytes.getD 4 0)
  let i := wrap64 (i * 256)
  let i := wrap64 (i + bytes.getD 5 0)
  let i := wrap64 (i * 256)
  let i := wrap64 (i + bytes.getD 6 0)
  let i := wrap64 (i * 256)
  let i := wrap64 (i + bytes.getD 7 0)
  i

def int8_to_bytes (val : Int) : List Nat :=
  [toByte val]

/-- `int16_to_bytes`: `bytes[1] = (uint8_t) val; val >>= 8; bytes[0] = ...` —
the arithmetic right shift of the (possibly negative) value is `Int.fdiv`. -/
def int16_to_bytes (val : Int) : List Nat :=
  let b1 := toByte val
  let val := val.fdiv 256
  let b0 := toByte val
  [b0, b1]

def int32_to_bytes (val : Int) : List Nat :=
  let b3 := toByte val
  let val := val.fdiv 256
  let b2 := toByte val
  let val := val.fdiv 256
  let b1 := toByte val
  let val := val.fdiv 256
  let b0 := toByte val
  [b0, b1, b2, b3]

def int64_to_bytes (val : Int) : List Nat :=
  let b7 := toByte val
  let val := val.fdiv 256
  let b6 := toByte val
  let val := val.fdiv 256
  let b5 := toByte val
  let val := val.fdiv 256
  let b4 := toByte val
  let val := val.fdiv 256
  let b3 := toByte val
  let val := val.fdiv 256
  let b2 := toByte val
  let val := val.fdiv 256
  let b1 := toByte val
  let val := val.fdiv 256
  let b0 := toByte val
  [b0, b1, b2, b3, b4, b5, b6, b7]

/-! ## Floats

`bytes_to_float` / `float_to_bytes` (and the `double` pair) only move the
bytes of the IEEE-754 object representation: they reinterpret memory and,
when the host is little-endian, reverse the byte order, so that the wire
always carries the bit pattern most-significant byte first.  No arithmetic
is performed on the floating-point value, so the functions are embedded on
the 32-bit (resp. 64-bit) IEEE-754 *bit pattern*, on which both the
big-endian and the little-endian branch of the C source act as the
big-endian integer codec. -/

def bytes_to_float (bytes : List Nat) : Nat :=
  bytes_to_uint32 bytes

def float_to_bytes (bits : Nat) : List Nat :=
  uint32_to_bytes bits

def bytes_to_double (bytes : List Nat) : Nat :=
  bytes_to_uint64 bytes

def double_to_bytes (bits : Nat) : List Nat :=
  uint64_to_bytes bits

/-- `bytes_to_bool`: `return (*bytes) != 0;` (a `uint8_t` 0/1). -/
def bytes_to_bool (bytes : List Nat) : Nat :=
  if bytes.getD 0 0 ≠ 0 then 1 else 0

/-- `bool_to_bytes`: `(*bytes) = val;` (`val` is a `uint8_t` parameter). -/
def bool_to_bytes (val : Nat) : List Nat :=
  [val % 256]

/-! ## Domain codec (eput_utils.c lines 239-325, eput_utils.h lines 20-54)

Each domain decoder calls the primitive decoders at the fixed offsets of the
source (`bytes + k` becomes `bytes.drop k`); each encoder writes its fields
at consecutive offsets, which concatenation models exactly. -/

/-- `typedef int64_t time_point;` -/
def bytes_to_time_point (bytes : List Nat) : Int :=
  bytes_to_int64 bytes

def time_point_to_bytes (val : Int) : List Nat :=
  int64_to_bytes val

/-- `hh_mm_ss`: three `uint8_t` fields. -/
structure hh_mm_ss where
  hours : Nat
  minutes : Nat
  seconds : Nat
deriving DecidableEq

def bytes_to_hh_mm_ss (bytes : List Nat) : hh_mm_ss :=
  { hours := bytes_to_uint8 bytes
    minutes := bytes_to_uint8 (bytes.drop 1)
    seconds := bytes_to_uint8 (bytes.drop 2) }

def hh_mm_ss_to_bytes (val : hh_mm_ss) : List Nat :=
  uint8_to_bytes val.hours ++ uint8_to_bytes val.minutes ++ uint8_to_bytes val.seconds

/-- `date_range`: two `time_point`s.  The C field names `from`/`to` are Lean
keywords, hence the trailing underscores. -/
structure date_range where
  from_ : Int
  to_ : Int
deriving DecidableEq

def bytes_to_date_range (bytes : List Nat) : date_range :=
  { from_ := bytes_to_time_point bytes
    to_ := bytes_to_time_point (bytes.drop 8) }

def date_range_to_bytes (val : date_range) : List Nat :=
  time_point_to_bytes val.from_ ++ time_point_to_bytes val.to_

/-- `time_range`: two `hh_mm_ss`. -/
structure time_range where
  from_ : hh_mm_ss
  to_ : hh_mm_ss
deriving DecidableEq

def bytes_to_time_range (bytes : List Nat) : time_range :=
  { from_ := bytes_to_hh_mm_ss bytes
    to_ := bytes_to_hh_mm_ss (bytes.drop 3) }

def time_range_to_bytes (val : time_range) : List Nat :=
  hh_mm_ss_to_bytes val.from_ ++ hh_mm_ss_to_bytes val.to_

/-- `typedef int16_t zone_offset;` -/
def bytes_to_zone_offset (bytes : List Nat) : Int :=
  bytes_to_int16 bytes

def zone_offset_to_bytes (val : Int) : List Nat :=
  int16_to_bytes val

/-- `zoned_time`: a `time_point` (offset 0, 8 bytes) and a `zone_offset`
(offset 8, 2 bytes). -/
structure zoned_time where
  time : Int
  offset : Int
deriving DecidableEq

def bytes_to_zoned_time (bytes : List Nat) : zoned_time :=
  { time := bytes_to_time_point bytes
    offset := bytes_to_zone_offset (bytes.drop 8) }

def zoned_time_to_bytes (val : zoned_time) : List Nat :=
  time_point_to_bytes val.time ++ zone_offset_to_bytes val.offset

/-- `fixp32`: `int32_t unscaled; int32_t scale;`. -/
structure fixp32 where
  unscaled : Int
  scale : Int
deriving DecidableEq

/-- `bytes_to_fixp32`: the unscaled value is decoded from the bytes, the
scale is taken from the out-of-band parameter. -/
def bytes_to_fixp32 (bytes : List Nat) (scale : Int) : fixp32 :=
  { unscaled := bytes_to_int32 bytes, scale := scale }

/-- `fixp32_to_bytes` serializes only `unscaled`; `scale` is ignored. -/
def fixp32_to_bytes (val : fixp32) : List Nat :=
  int32_to_bytes val.unscaled

/-- `fixp64`: `int64_t unscaled; int32_t scale;`. -/
structure fixp64 where
  unscaled : Int
  scale : Int
deriving DecidableEq

def bytes_to_fixp64 (bytes : List Nat) (scale : Int) : fixp64 :=
  { unscaled := bytes_to_int64 bytes, scale := scale }

def fixp64_to_bytes (val : fixp64) : List Nat :=
  int64_to_bytes val.unscaled

/-! ## Constants (eput_utils.h lines 7-18) -/

def TLV_TYPE_NULL : Nat := 0
def TLV_TYPE_TERMINATOR : Nat := 254
def TLV_TYPE_NDEF : Nat := 3
def TNF_URI : Nat := 3
def SUCCESS : Int := 0
def ERR_NO_NDEF_TLV : Int := -10
def ERR_REC_BUF_TRUNCATED : Int := -20
def ERR_REC_WRONG_TYPE : Int := -21

/-- The byte values of `RECORD_TYPE_SCHEME`, the C string constant
`"https://pma.inftech.hs-mannheim.de/eput"` (39 characters). -/
def RECORD_TYPE_SCHEME : List Nat :=
  [104, 116, 116, 112, 115, 58, 47, 47, 112, 109, 97, 46, 105, 110, 102, 116,
   101, 99, 104, 46, 104, 115, 45, 109, 97, 110, 110, 104, 101, 105, 109, 46,
   100, 101, 47, 101, 112, 117, 116]

/-- `starts_with(str, str_len, prefix)` with a non-NULL `str`: false when the
prefix is longer than `str_len`, otherwise `strncmp(str, prefix, strlen(prefix))
== 0`, i.e. the first `prefix.length` bytes of `str` equal `prefix` (the
scheme constant contains no NUL byte, so `strncmp` compares all of them). -/
def starts_with (str : List Nat) (str_len : Nat) (pre : List Nat) : Bool :=
  if pre.length > str_len then false
  else decide (str.take pre.length = pre)

/-! ## TLV scanner (`get_ndef_tlv_offset`, eput_utils.c lines 355-395)

The result is `some (ret, offset?)` where `ret` is the C return value and
`offset?` is `some i` exactly when the function stored `i` through
`offset_p` (it leaves `*offset_p` untouched on the not-found paths).
A `none` result records that the C code read `buf[i]` for some
`i ≥ buf_len`: that happens on the extended-length path, whose guard
`buf_len < index + 2` (with `index` already advanced past the type byte)
permits `buf[index + 2]` — the absolute index `i0 + 3` below — to be one
past the end of the buffer.  All other reads are covered by their guards,
so they are modelled with `getD`. -/

def tlv_loop (buf : List Nat) (index : Nat) : Option (Nat × Option Nat) :=
  if h : index < buf.length then
    let ty := buf.getD index 0
    if ty = TLV_TYPE_NULL then
      tlv_loop buf (index + 1)
    else if ty = TLV_TYPE_TERMINATOR then
      some (0, none)
    else if buf.length < index + 2 then
      some (0, none)
    else
      let b := buf.getD (index + 1) 0
      if b = 255 then
        if buf.length < index + 3 then
          some (0, none)
        else
          match buf.get? (index + 3) with
          | none => none
          | some lo =>
            let len := buf.getD (index + 2) 0 * 256 + lo
            if len = 65535 then
              some (0, none)
            else if ty = TLV_TYPE_NDEF then
              some (len, some (index + 4))
            else
              tlv_loop buf (index + 4 + len)
      else
        if ty = TLV_TYPE_NDEF then
          some (b, some (index + 2))
        else
          tlv_loop buf (index + 2 + b)
  else
    some (0, none)
termination_by buf.length - index
decreasing_by all_goals (simp_wf; omega)

def get_ndef_tlv_offset (buf : List Nat) : Option (Nat × Option Nat) :=
  tlv_loop buf 0

/-! ## NDEF record decoder (`get_record`, eput_utils.c lines 397-442)

`ndef_record`'s pointer fields (`type`, `id`, `payload`) are modelled as
offsets into the buffer passed to `get_record`; `none` is the C `NULL`.
The result is `some (status, record')` where `record'` is the record
structure after the call (unchanged when the function returns before its
assignment block), and `none` again means an out-of-bounds read: after the
`buf_len < 2` guard the code reads the payload-length field (`buf[2]`, or
`buf[2..5]` via `bytes_to_uint32(buf + 2)`) and the optional id-length byte
`buf[2 + pl_length]` with no further bounds check, so those reads use
`get?`.

The total-length comparison and the return value reproduce the C
arithmetic: the sum `2 + pl_length + idl_length + type_length + id_length +
payload_length` is computed in `uint32_t` (the type of `payload_length`),
i.e. modulo `2^32`, and the return value is that `uint32_t` converted to
`int`. -/

structure ndef_record where
  tnf : Nat
  type_length : Nat
  type : Option Nat
  id_length : Nat
  id : Option Nat
  payload_length : Nat
  payload : Option Nat
deriving DecidableEq

/-- An arbitrary pre-call record value (the C caller's uninitialized or
previous `ndef_record`). -/
def rec0 : ndef_record :=
  { tnf := 0, type_length := 0, type := none, id_length := 0, id := none
    payload_length := 0, payload := none }

def get_record (buf : List Nat) (record : ndef_record) : Option (Int × ndef_record) :=
  if buf.length < 2 then
    some (ERR_REC_BUF_TRUNCATED, record)
  else
    let flags := buf.getD 0 0
    let tnf := flags &&& 7
    let id_length_present := flags &&& 8
    let short_record := flags &&& 16
    let type_length := buf.getD 1 0
    let pl_length := if short_record > 0 then 1 else 4
    let idl_length := if id_length_present > 0 then 1 else 0
    let payload_length? : Option Nat :=
      if short_record > 0 then
        buf.get? 2
      else
        match buf.get? 2, buf.get? 3, buf.get? 4, buf.get? 5 with
        | some b0, some b1, some b2, some b3 =>
          some ((b0 * 16777216 + b1 * 65536 + b2 * 256 + b3) % 4294967296)
        | _, _, _, _ => none
    match payload_length? with
    | none => none
    | some payload_length =>
      match (if id_length_present > 0 then buf.get? (2 + pl_length) else some 0) with
      | none => none
      | some id_length =>
        let id : Option Nat :=
          if id_length_present > 0 ∧ id_length > 0 then
            some (2 + pl_length + idl_length + type_length)
          else
            none
        let type := 2 + pl_length + idl_length
        let payload := 2 + pl_length + idl_length + type_length + id_length
        let sum :=
          (2 + pl_length + idl_length + type_length + id_length + payload_length) %
            4294967296
        if buf.length < sum then
          some (ERR_REC_BUF_TRUNCATED, record)
        else
          some (uint32ToInt sum,
            { tnf := tnf, type_length := type_length, type := some type
              id_length := id_length, id := id
              payload_length := payload_length, payload := some payload })

/-! ## Message decoder (`get_records`, eput_utils.c lines 444-462) -/

/-- `type_valid(rec->type, rec->type_length)` where `rec`'s offsets refer to
`buf`: `starts_with((char *) bytes, len, RECORD_TYPE_SCHEME)`.  A `none`
offset is the C `NULL` pointer, for which `starts_with` returns 0. -/
def type_valid (buf : List Nat) (rec : ndef_record) : Bool :=
  match rec.type with
  | none => false
  | some off => starts_with (buf.drop off) rec.type_length RECORD_TYPE_SCHEME

/-- `get_records(buf, buf_len, meta_rec, data_rec)`; result
`some (status, meta_rec', data_rec')`.  The first record is decoded from the
start of the buffer into `data_rec`, the second from `buf + ret` into
`meta_rec`; its offsets refer to `buf.drop ret.toNat`. -/
def get_records (buf : List Nat) (meta_rec data_rec : ndef_record) :
    Option (Int × ndef_record × ndef_record) :=
  match get_record buf data_rec with
  | none => none
  | some (ret, data_rec') =>
    if ret < 0 then
      some (ret, meta_rec, data_rec')
    else if data_rec'.tnf ≠ TNF_URI ∨ type_valid buf data_rec' = false then
      some (ERR_REC_WRONG_TYPE, meta_rec, data_rec')
    else
      match get_record (buf.drop ret.toNat) meta_rec with
      | none => none
      | some (ret2, meta_rec') =>
        if ret2 < 0 then
          some (ret2, meta_rec', data_rec')
        else if meta_rec'.tnf ≠ TNF_URI ∨
            type_valid (buf.drop ret.toNat) meta_rec' = false then
          some (ERR_REC_WRONG_TYPE, meta_rec', data_rec')
        else
          some (SUCCESS, meta_rec', data_rec')

/-! ## Bitmap option checker (`is_option_selected`, eput_utils.c lines 464-471) -/

/-- `is_option_selected(bitmap, bitmap_len, option)`: byte `option / 8`,
mask `0x01 << (option % 8)`.  The C `assert(option < bitmap_len * 8)` is a
precondition, not a run-time branch; under it the byte access is in
bounds. -/
def is_option_selected (bitmap : List Nat) (option : Nat) : Bool :=
  let map_index := option / 8
  let byte_index := option % 8
  let b := bitmap.getD map_index 0
  let mask := 1 <<< byte_index
  decide (b &&& mask ≠ 0)

/-! ## Helper lemmas: wrap congruences -/

theorem wrap16_add (y c : Int) : wrap16 (wrap16 y + c) = wrap16 (y + c) := by
  unfold wrap16; omega

theorem wrap16_mul (y : Int) : wrap16 (wrap16 y * 256) = wrap16 (y * 256) := by
  unfold wrap16; omega

theorem wrap32_add (y c : Int) : wrap32 (wrap32 y + c) = wrap32 (y + c) := by
  unfold wrap32; omega

theorem wrap32_mul (y : Int) : wrap32 (wrap32 y * 256) = wrap32 (y * 256) := by
  unfold wrap32; omega

theorem wrap64_add (y c : Int) : wrap64 (wrap64 y + c) = wrap64 (y + c) := by
  unfold wrap64; omega

theorem wrap64_mul (y : Int) : wrap64 (wrap64 y * 256) = wrap64 (y * 256) := by
  unfold wrap64; omega

/-! ## Helper lemmas: signed encoders in terms of the two's-complement
representation -/

theorem int16_to_bytes_eq (v : Int) :
    int16_to_bytes v =
      [(v % 65536).toNat / 256 % 256, (v % 65536).toNat % 256] := by
  unfold int16_to_bytes toByte
  simp only []
  rw [Int.fdiv_eq_ediv _ (by norm_num)]
  simp only [List.cons.injEq, and_true]
  refine ⟨?_, ?_⟩ <;> omega

theorem int32_to_bytes_eq (v : Int) :
    int32_to_bytes v =
      [(v % 4294967296).toNat / 16777216 % 256,
       (v % 4294967296).toNat / 65536 % 256,
       (v % 4294967296).toNat / 256 % 256,
       (v % 4294967296).toNat % 256] := by
  unfold int32_to_bytes toByte
  simp only []
  rw [Int.fdiv_eq_ediv _ (by norm_num)]
  rw [Int.fdiv_eq_ediv _ (by norm_num)]
  rw [Int.fdiv_eq_ediv _ (by norm_num)]
  simp only [List.cons.injEq, and_true]
  refine ⟨?_, ?_, ?_, ?_⟩ <;> omega

theorem int64_to_bytes_eq (v : Int) :
    int64_to_bytes v =
      [(v % 18446744073709551616).toNat / 72057594037927936 % 256,
       (v % 18446744073709551616).toNat / 281474976710656 % 256,
       (v % 18446744073709551616).toNat / 1099511627776 % 256,
       (v % 18446744073709551616).toNat / 4294967296 % 256,
       (v % 18446744073709551616).toNat / 16777216 % 256,
       (v % 18446744073709551616).toNat / 65536 % 256,
       (v % 18446744073709551616).toNat / 256 % 256,
       (v % 18446744073709551616).toNat % 256] := by
  unfold int64_to_bytes toByte
  simp only []
  rw [Int.fdiv_eq_ediv _ (by norm_num)]
  rw [Int.fdiv_eq_ediv _ (by norm_num)]
  rw [Int.fdiv_eq_ediv _ (by norm_num)]
  rw [Int.fdiv_eq_ediv _ (by norm_num)]
  rw [Int.fdiv_eq_ediv _ (by norm_num)]
  rw [Int.fdiv_eq_ediv _ (by norm_num)]
  rw [Int.fdiv_eq_ediv _ (by norm_num)]
  simp only [List.cons.injEq, and_true]
  refine ⟨?_, ?_, ?_, ?_, ?_, ?_, ?_, ?_⟩ <;> omega

/-! ## Helper lemmas: per-type round trips -/

theorem roundtrip_uint8 (v : Nat) (h : v < 256) :
    bytes_to_uint8 (uint8_to_bytes v) = v := by
  unfold bytes_to_uint8 uint8_to_bytes
  simp only [List.getD_cons_zero]
  omega

theorem roundtrip_uint16 (v : Nat) (h : v < 65536) :
    bytes_to_uint16 (uint16_to_bytes v) = v := by
  unfold bytes_to_uint16 uint16_to_bytes
  simp only [List.getD_cons_zero, List.getD_cons_succ]
  omega

theorem roundtrip_uint32 (v : Nat) (h : v < 4294967296) :
    bytes_to_uint32 (uint32_to_bytes v) = v := by
  unfold bytes_to_uint32 uint32_to_bytes
  simp only [List.getD_cons_zero, List.getD_cons_succ]
  omega

theorem roundtrip_uint64 (v : Nat) (h : v < 18446744073709551616) :
    bytes_to_uint64 (uint64_to_bytes v) = v := by
  unfold bytes_to_uint64 uint64_to_bytes
  simp only [List.getD_cons_zero, List.getD_cons_succ]
  omega

theorem roundtrip_int8 (v : Int) (hlo : -128 ≤ v) (hhi : v < 128) :
    bytes_to_int8 (int8_to_bytes v) = v := by
  unfold bytes_to_int8 int8_to_bytes toByte wrap8
  simp only [List.getD_cons_zero]
  omega

theorem roundtrip_int16 (v : Int) (hlo : -32768 ≤ v) (hhi : v < 32768) :
    bytes_to_int16 (int16_to_bytes v) = v := by
  rw [int16_to_bytes_eq]
  unfold bytes_to_int16
  simp only [List.getD_cons_zero, List.getD_cons_succ]
  simp only [wrap16_mul, wrap16_add]
  unfold wrap16
  omega

theorem roundtrip_int32 (v : Int) (hlo : -2147483648 ≤ v) (hhi : v < 2147483648) :
    bytes_to_int32 (int32_to_bytes v) = v := by
  rw [int32_to_bytes_eq]
  unfold bytes_to_int32
  simp only [List.getD_cons_zero, List.getD_cons_succ]
  simp only [wrap32_mul, wrap32_add]
  unfold wrap32
  omega

theorem roundtrip_int64 (v : Int)
    (hlo : -9223372036854775808 ≤ v) (hhi : v < 9223372036854775808) :
    bytes_to_int64 (int64_to_bytes v) = v := by
  rw [int64_to_bytes_eq]
  unfold bytes_to_int64
  simp only [List.getD_cons_zero, List.getD_cons_succ]
  simp only [wrap64_mul, wrap64_add]
  unfold wrap64
  omega

theorem int64_to_bytes_length (v : Int) : (int64_to_bytes v).length = 8 := rfl

theorem int16_to_bytes_length (v : Int) : (int16_to_bytes v).length = 2 := rfl

theorem hh_mm_ss_to_bytes_length (t : hh_mm_ss) :
    (hh_mm_ss_to_bytes t).length = 3 := rfl

/-- The 8-byte decoder only reads the first 8 bytes. -/
theorem bytes_to_int64_append (l r : List Nat) (h : l.length = 8) :
    bytes_to_int64 (l ++ r) = bytes_to_int64 l := by
  unfold bytes_to_int64
  rw [List.getD_append _ _ _ _ (by omega), List.getD_append _ _ _ _ (by omega),
      List.getD_append _ _ _ _ (by omega), List.getD_append _ _ _ _ (by omega),
      List.getD_append _ _ _ _ (by omega), List.getD_append _ _ _ _ (by omega),
      List.getD_append _ _ _ _ (by omega), List.getD_append _ _ _ _ (by omega)]

/-- The 2-byte decoder only reads the first 2 bytes. -/
theorem bytes_to_int16_append (l r : List Nat) (h : l.length = 2) :
    bytes_to_int16 (l ++ r) = bytes_to_int16 l := by
  unfold bytes_to_int16
  rw [List.getD_append _ _ _ _ (by omega), List.getD_append _ _ _ _ (by omega)]

theorem roundtrip_bool (v : Nat) (h : v ≤ 1) :
    bytes_to_bool (bool_to_bytes v) = v := by
  unfold bytes_to_bool bool_to_bytes
  simp only [List.getD_cons_zero]
  interval_cases v <;> decide

theorem roundtrip_hh_mm_ss (t : hh_mm_ss)
    (hh : t.hours < 256) (hm : t.minutes < 256) (hs : t.seconds < 256) :
    bytes_to_hh_mm_ss (hh_mm_ss_to_bytes t) = t := by
  obtain ⟨h, m, s⟩ := t
  simp only at hh hm hs
  unfold bytes_to_hh_mm_ss hh_mm_ss_to_bytes bytes_to_uint8 uint8_to_bytes
  simp only [List.cons_append, List.nil_append, List.drop_succ_cons,
    List.drop_zero, List.getD_cons_zero, hh_mm_ss.mk.injEq]
  refine ⟨?_, ?_, ?_⟩ <;> omega

theorem roundtrip_time_point (v : Int)
    (hlo : -9223372036854775808 ≤ v) (hhi : v < 9223372036854775808) :
    bytes_to_time_point (time_point_to_bytes v) = v := by
  unfold bytes_to_time_point time_point_to_bytes
  exact roundtrip_int64 v hlo hhi

theorem roundtrip_zone_offset (v : Int) (hlo : -32768 ≤ v) (hhi : v < 32768) :
    bytes_to_zone_offset (zone_offset_to_bytes v) = v := by
  unfold bytes_to_zone_offset zone_offset_to_bytes
  exact roundtrip_int16 v hlo hhi

theorem roundtrip_date_range (r : date_range)
    (h1 : -9223372036854775808 ≤ r.from_) (h2 : r.from_ < 9223372036854775808)
    (h3 : -9223372036854775808 ≤ r.to_) (h4 : r.to_ < 9223372036854775808) :
    bytes_to_date_range (date_range_to_bytes r) = r := by
  obtain ⟨f, t⟩ := r
  simp only at h1 h2 h3 h4
  unfold bytes_to_date_range date_range_to_bytes bytes_to_time_point
    time_point_to_bytes
  rw [bytes_to_int64_append _ _ (int64_to_bytes_length f),
      List.drop_left' (int64_to_bytes_length f)]
  simp only [date_range.mk.injEq]
  exact ⟨roundtrip_int64 f h1 h2, roundtrip_int64 t h3 h4⟩

theorem roundtrip_time_range (r : time_range)
    (h1 : r.from_.hours < 256) (h2 : r.from_.minutes < 256)
    (h3 : r.from_.seconds < 256) (h4 : r.to_.hours < 256)
    (h5 : r.to_.minutes < 256) (h6 : r.to_.seconds < 256) :
    bytes_to_time_range (time_range_to_bytes r) = r := by
  obtain ⟨⟨fh, fm, fs⟩, ⟨th, tm, ts⟩⟩ := r
  simp only at h1 h2 h3 h4 h5 h6
  unfold bytes_to_time_range time_range_to_bytes bytes_to_hh_mm_ss
    hh_mm_ss_to_bytes bytes_to_uint8 uint8_to_bytes
  simp only [List.cons_append, List.nil_append, List.drop_succ_cons,
    List.drop_zero, List.getD_cons_zero, time_range.mk.injEq,
    hh_mm_ss.mk.injEq]
  refine ⟨⟨?_, ?_, ?_⟩, ⟨?_, ?_, ?_⟩⟩ <;> omega

theorem roundtrip_zoned_time (z : zoned_time)
    (h1 : -9223372036854775808 ≤ z.time) (h2 : z.time < 9223372036854775808)
    (h3 : -32768 ≤ z.offset) (h4 : z.offset < 32768) :
    bytes_to_zoned_time (zoned_time_to_bytes z) = z := by
  obtain ⟨t, o⟩ := z
  simp only at h1 h2 h3 h4
  unfold bytes_to_zoned_time zoned_time_to_bytes bytes_to_time_point
    time_point_to_bytes bytes_to_zone_offset zone_offset_to_bytes
  rw [bytes_to_int64_append _ _ (int64_to_bytes_length t),
      List.drop_left' (int64_to_bytes_length t)]
  simp only [zoned_time.mk.injEq]
  exact ⟨roundtrip_int64 t h1 h2, roundtrip_int16 o h3 h4⟩

/-! ## Claim theorems -/

/-- C6: for every primitive and domain type (unsigned/signed integers of
8/16/32/64 bits, bool, float, double, TimePoint, WallTime, DateRange,
WallTimeRange, ZoneOffset, ZonedTime) and every representable value v,
decoding the bytes produced by encoding v yields v again — including
WallTime (`hh_mm_ss`) field values outside the calendar ranges, which are
not validated.  Floats and doubles are represented by their IEEE-754 bit
patterns, which is what the C functions transport unaltered. -/
theorem c6_roundtrip :
    (∀ v : Nat, v < 256 → bytes_to_uint8 (uint8_to_bytes v) = v) ∧
    (∀ v : Nat, v < 65536 → bytes_to_uint16 (uint16_to_bytes v) = v) ∧
    (∀ v : Nat, v < 4294967296 → bytes_to_uint32 (uint32_to_bytes v) = v) ∧
    (∀ v : Nat, v < 18446744073709551616 →
      bytes_to_uint64 (uint64_to_bytes v) = v) ∧
    (∀ v : Int, -128 ≤ v → v < 128 → bytes_to_int8 (int8_to_bytes v) = v) ∧
    (∀ v : Int, -32768 ≤ v → v < 32768 →
      bytes_to_int16 (int16_to_bytes v) = v) ∧
    (∀ v : Int, -2147483648 ≤ v → v < 2147483648 →
      bytes_to_int32 (int32_to_bytes v) = v) ∧
    (∀ v : Int, -9223372036854775808 ≤ v → v < 9223372036854775808 →
      bytes_to_int64 (int64_to_bytes v) = v) ∧
    (∀ v : Nat, v ≤ 1 → bytes_to_bool (bool_to_bytes v) = v) ∧
    (∀ bits : Nat, bits < 4294967296 →
      bytes_to_float (float_to_bytes bits) = bits) ∧
    (∀ bits : Nat, bits < 18446744073709551616 →
      bytes_to_double (double_to_bytes bits) = bits) ∧
    (∀ v : Int, -9223372036854775808 ≤ v → v < 9223372036854775808 →
      bytes_to_time_point (time_point_to_bytes v) = v) ∧
    (∀ t : hh_mm_ss, t.hours < 256 → t.minutes < 256 → t.seconds < 256 →
      bytes_to_hh_mm_ss (hh_mm_ss_to_bytes t) = t) ∧
    (∀ r : date_range,
      -9223372036854775808 ≤ r.from_ → r.from_ < 9223372036854775808 →
      -9223372036854775808 ≤ r.to_ → r.to_ < 9223372036854775808 →
      bytes_to_date_range (date_range_to_bytes r) = r) ∧
    (∀ r : time_range,
      r.from_.hours < 256 → r.from_.minutes < 256 → r.from_.seconds < 256 →
      r.to_.hours < 256 → r.to_.minutes < 256 → r.to_.seconds < 256 →
      bytes_to_time_range (time_range_to_bytes r) = r) ∧
    (∀ v : Int, -32768 ≤ v → v < 32768 →
      bytes_to_zone_offset (zone_offset_to_bytes v) = v) ∧
    (∀ z : zoned_time,
      -9223372036854775808 ≤ z.time → z.time < 9223372036854775808 →
      -32768 ≤ z.offset → z.offset < 32768 →
      bytes_to_zoned_time (zoned_time_to_bytes z) = z) :=
  ⟨roundtrip_uint8, roundtrip_uint16, roundtrip_uint32, roundtrip_uint64,
   roundtrip_int8, roundtrip_int16, roundtrip_int32, roundtrip_int64,
   roundtrip_bool,
   fun bits h => roundtrip_uint32 bits h,
   fun bits h => roundtrip_uint64 bits h,
   roundtrip_time_point, roundtrip_hh_mm_ss, roundtrip_date_range,
   roundtrip_time_range, roundtrip_zone_offset, roundtrip_zoned_time⟩

/-- Witness for C6: every round-trip conjunct instantiated at a concrete
boundary value, including an out-of-calendar-range wall time 25:61:61. -/
theorem c6_roundtrip_witness :
    bytes_to_uint8 (uint8_to_bytes 255) = 255 ∧
    bytes_to_uint16 (uint16_to_bytes 65535) = 65535 ∧
    bytes_to_uint32 (uint32_to_bytes 4294967295) = 4294967295 ∧
    bytes_to_uint64 (uint64_to_bytes 18446744073709551615) =
      18446744073709551615 ∧
    bytes_to_int8 (int8_to_bytes (-128)) = -128 ∧
    bytes_to_int16 (int16_to_bytes (-32768)) = -32768 ∧
    bytes_to_int32 (int32_to_bytes (-2147483648)) = -2147483648 ∧
    bytes_to_int64 (int64_to_bytes (-9223372036854775808)) =
      -9223372036854775808 ∧
    bytes_to_bool (bool_to_bytes 1) = 1 ∧
    bytes_to_float (float_to_bytes 4286578688) = 4286578688 ∧
    bytes_to_double (double_to_bytes 18444492273895866368) =
      18444492273895866368 ∧
    bytes_to_time_point (time_point_to_bytes (-1)) = -1 ∧
    bytes_to_hh_mm_ss (hh_mm_ss_to_bytes ⟨25, 61, 61⟩) = ⟨25, 61, 61⟩ ∧
    bytes_to_date_range (date_range_to_bytes
      ⟨-9223372036854775808, 9223372036854775807⟩) =
      ⟨-9223372036854775808, 9223372036854775807⟩ ∧
    bytes_to_time_range (time_range_to_bytes ⟨⟨25, 61, 61⟩, ⟨99, 99, 99⟩⟩) =
      ⟨⟨25, 61, 61⟩, ⟨99, 99, 99⟩⟩ ∧
    bytes_to_zone_offset (zone_offset_to_bytes (-720)) = -720 ∧
    bytes_to_zoned_time (zoned_time_to_bytes ⟨-1, -720⟩) = ⟨-1, -720⟩ := by
  obtain ⟨h1, h2, h3, h4, h5, h6, h7, h8, h9, h10, h11, h12, h13, h14, h15,
    h16, h17⟩ := c6_roundtrip
  exact ⟨h1 255 (by decide), h2 65535 (by decide), h3 4294967295 (by decide),
    h4 18446744073709551615 (by decide),
    h5 (-128) (by decide) (by decide), h6 (-32768) (by decide) (by decide),
    h7 (-2147483648) (by decide) (by decide),
    h8 (-9223372036854775808) (by decide) (by decide),
    h9 1 (by decide), h10 4286578688 (by decide),
    h11 18444492273895866368 (by decide),
    h12 (-1) (by decide) (by decide),
    h13 ⟨25, 61, 61⟩ (by decide) (by decide) (by decide),
    h14 ⟨-9223372036854775808, 9223372036854775807⟩
      (by decide) (by decide) (by decide) (by decide),
    h15 ⟨⟨25, 61, 61⟩, ⟨99, 99, 99⟩⟩ (by decide) (by decide) (by decide)
      (by decide) (by decide) (by decide),
    h16 (-720) (by decide) (by decide),
    h17 ⟨-1, -720⟩ (by decide) (by decide) (by decide) (by decide)⟩

/-- C7: fixed-point encoding serializes only the unscaled field and ignores
the scale; decoding takes the scale from its out-of-band parameter: for all
unscaled u and scales s1, s2, decoding (with scale s2) the encoding of
{unscaled := u, scale := s1} yields {unscaled := u, scale := s2} — for both
`fixp32` and `fixp64`. -/
theorem c7_fixedpoint_scale_asymmetry :
    (∀ u s1 s2 : Int, -2147483648 ≤ u → u < 2147483648 →
      bytes_to_fixp32 (fixp32_to_bytes ⟨u, s1⟩) s2 = ⟨u, s2⟩) ∧
    (∀ u s1 s2 : Int, -9223372036854775808 ≤ u → u < 9223372036854775808 →
      bytes_to_fixp64 (fixp64_to_bytes ⟨u, s1⟩) s2 = ⟨u, s2⟩) := by
  constructor
  · intro u s1 s2 hlo hhi
    unfold bytes_to_fixp32 fixp32_to_bytes
    simp only [fixp32.mk.injEq, and_true]
    exact roundtrip_int32 u hlo hhi
  · intro u s1 s2 hlo hhi
    unfold bytes_to_fixp64 fixp64_to_bytes
    simp only [fixp64.mk.injEq, and_true]
    exact roundtrip_int64 u hlo hhi

/-- Witness for C7: the spec's own example — encode {unscaled := 5,
scale := 2}, decode with scale 7, obtain {unscaled := 5, scale := 7}. -/
theorem c7_fixedpoint_scale_asymmetry_witness :
    bytes_to_fixp32 (fixp32_to_bytes ⟨5, 2⟩) 7 = ⟨5, 7⟩ ∧
    bytes_to_fixp64 (fixp64_to_bytes ⟨5, 2⟩) 7 = ⟨5, 7⟩ :=
  ⟨c7_fixedpoint_scale_asymmetry.1 5 2 7 (by decide) (by decide),
   c7_fixedpoint_scale_asymmetry.2 5 2 7 (by decide) (by decide)⟩

/-- C8: integer encoding is big-endian independent of any host property:
`uint32_to_bytes 0x01020304 = [0x01, 0x02, 0x03, 0x04]` and
`int16_to_bytes (-1) = [0xFF, 0xFF]` (two's complement). -/
theorem c8_big_endian :
    uint32_to_bytes 16909060 = [1, 2, 3, 4] ∧
    int16_to_bytes (-1) = [255, 255] := by
  constructor
  · decide
  · decide

/-- C1: the claim says the TLV scan never reads at an index `≥ buf_len` and
reports not-found (0) whenever the remaining buffer cannot hold the next
header bytes or the declared value bytes — in particular on
`[0x03, 0x02, 0xAA]`.  The code does neither: on `[0x03, 0x02, 0xAA]` it
returns length 2 with offset 2 (found) without checking that the 2 declared
value bytes exist, and on `[0x03, 0xFF, 0x00]` the extended-length guard
`buf_len < index + 2` lets it read `buf[3]`, one byte past the end (the
`none` result). -/
theorem c1_tlv_scan_divergence :
    get_ndef_tlv_offset [3, 2, 170] = some (2, some 2) ∧
    get_ndef_tlv_offset [3, 255, 0] = none := by
  constructor
  · unfold get_ndef_tlv_offset
    rw [tlv_loop]
    simp [TLV_TYPE_NULL, TLV_TYPE_TERMINATOR, TLV_TYPE_NDEF]
  · unfold get_ndef_tlv_offset
    rw [tlv_loop]
    simp [TLV_TYPE_NULL, TLV_TYPE_TERMINATOR, TLV_TYPE_NDEF]

/-- C2: the claim says `get_record` succeeds iff `buf_len` is at least the
exact mathematical sum of header widths + type length + id length + payload
length, and returns that sum.  The code computes the sum in `uint32_t`: on
the 7-byte buffer `[0x00, 0x00, 0xFF, 0xFF, 0xFF, 0xFF, 0x00]` (long form,
payload length 0xFFFFFFFF) the sum `2 + 4 + 0 + 0 + 0 + 0xFFFFFFFF` wraps
to 5, the check passes although the true sum is 4294967301 > 7, and the
call succeeds returning 5. -/
theorem c2_length_sum_wraps :
    get_record [0, 0, 255, 255, 255, 255, 0] rec0 =
      some (5,
        { tnf := 0, type_length := 0, type := some 6, id_length := 0,
          id := none, payload_length := 4294967295, payload := some 6 }) ∧
    ([0, 0, 255, 255, 255, 255, 0] : List Nat).length <
      2 + 4 + 0 + 0 + 0 + 4294967295 := by
  constructor
  · decide
  · decide

/-- C3: the claim says `get_record` never accesses a byte at an index
`≥ buf_len`, including buffers of length 2..5 with the short-record bit
clear or the id-length bit set.  The code checks only `buf_len < 2` before
reading the payload-length field: with `buf = [0x00, 0x00]` (short bit
clear) it reads `buf[2..5]`, and with `buf = [0x13, 0x01]` (short bit set)
it reads `buf[2]` — both past the end (the `none` results). -/
theorem c3_reads_past_end :
    get_record [0, 0] rec0 = none ∧
    get_record [19, 1] rec0 = none := by
  constructor
  · decide
  · decide

/-- Case analysis of `get_record`: it either performs an out-of-bounds read
(`none`), fails with the truncation error leaving the record unchanged, or
succeeds returning the wrapped total length `s ≤ buf_len`. -/
theorem get_record_spec (buf : List Nat) (record : ndef_record) :
    get_record buf record = none ∨
    get_record buf record = some (ERR_REC_BUF_TRUNCATED, record) ∨
    (∃ s : Nat, s ≤ buf.length ∧ s < 4294967296 ∧
      ∃ r : ndef_record, get_record buf record = some (uint32ToInt s, r)) := by
  unfold get_record
  dsimp only
  repeat' split
  all_goals
    first
    | exact Or.inl rfl
    | exact Or.inr (Or.inl rfl)
    | (rename_i hsum
       exact Or.inr (Or.inr ⟨_, by omega, Nat.mod_lt _ (by norm_num), _, rfl⟩))

/-- C4: `get_records` consumes the first record from the buffer into the
data record and the second (from the bytes right after the first) into the
metadata record; each record must have TNF = URI (3) and a type that starts
with the URI-scheme constant; if the first record fails decoding or the
type check, the whole operation fails with that error and the second record
is never decoded (the metadata record is returned untouched). -/
theorem c4_get_records_contract :
    (∀ (buf : List Nat) (m d : ndef_record) (e : Int) (d' : ndef_record),
      get_record buf d = some (e, d') → e < 0 →
      get_records buf m d = some (e, m, d')) ∧
    (∀ (buf : List Nat) (m d : ndef_record) (e : Int) (d' : ndef_record),
      get_record buf d = some (e, d') → 0 ≤ e →
      (d'.tnf ≠ TNF_URI ∨ type_valid buf d' = false) →
      get_records buf m d = some (ERR_REC_WRONG_TYPE, m, d')) ∧
    (∀ (buf : List Nat) (m d : ndef_record) (e : Int) (d' : ndef_record),
      get_record buf d = some (e, d') → 0 ≤ e →
      d'.tnf = TNF_URI → type_valid buf d' = true →
      get_records buf m d =
        (match get_record (buf.drop e.toNat) m with
         | none => none
         | some (e2, m') =>
           if e2 < 0 then some (e2, m', d')
           else if m'.tnf ≠ TNF_URI ∨
               type_valid (buf.drop e.toNat) m' = false then
             some (ERR_REC_WRONG_TYPE, m', d')
           else some (SUCCESS, m', d'))) := by
  refine ⟨?_, ?_, ?_⟩
  · intro buf m d e d' h he
    unfold get_records
    rw [h]
    dsimp only
    rw [if_pos he]
  · intro buf m d e d' h he hty
    unfold get_records
    rw [h]
    dsimp only
    rw [if_neg (not_lt.mpr he), if_pos hty]
  · intro buf m d e d' h he h1 h2
    unfold get_records
    rw [h]
    dsimp only
    rw [if_neg (not_lt.mpr he), if_neg (by simp [h1, h2])]

/-- Witness for C4: the three paths at concrete buffers — a truncated first
record (`[0x00]`), a first record with a 1-byte type that fails the
URI-scheme check, and a valid first record followed by a truncated second
record. -/
theorem c4_get_records_contract_witness :
    get_records [0] rec0 rec0 = some (ERR_REC_BUF_TRUNCATED, rec0, rec0) ∧
    get_records [19, 1, 2, 85, 170, 187] rec0 rec0 =
      some (ERR_REC_WRONG_TYPE, rec0,
        { tnf := 3, type_length := 1, type := some 3, id_length := 0,
          id := none, payload_length := 2, payload := some 4 }) ∧
    get_records ([19, 39, 0] ++ RECORD_TYPE_SCHEME) rec0 rec0 =
      some (ERR_REC_BUF_TRUNCATED, rec0,
        { tnf := 3, type_length := 39, type := some 3, id_length := 0,
          id := none, payload_length := 0, payload := some 42 }) := by
  have h1 := c4_get_records_contract.1 [0] rec0 rec0 ERR_REC_BUF_TRUNCATED rec0
    (by decide) (by decide)
  have h2 := c4_get_records_contract.2.1 [19, 1, 2, 85, 170, 187] rec0 rec0 6
    { tnf := 3, type_length := 1, type := some 3, id_length := 0,
      id := none, payload_length := 2, payload := some 4 }
    (by decide) (by decide) (by decide)
  have h3 := c4_get_records_contract.2.2 ([19, 39, 0] ++ RECORD_TYPE_SCHEME)
    rec0 rec0 42
    { tnf := 3, type_length := 39, type := some 3, id_length := 0,
      id := none, payload_length := 0, payload := some 42 }
    (by decide) (by decide) (by decide) (by decide)
  exact ⟨h1, h2, h3.trans (by decide)⟩

/-- Helper for the C5 counterexample, with the 2^31 - 6 trailing bytes kept
abstract so that no proof step evaluates them: a long-form record declaring
payload length 0x7FFFFFFA on a buffer of total length 2^31 passes the
length check with the 32-bit sum 2^31, which converts to the negative
return value -2^31 after the record has been written. -/
theorem c5_wrapped_negative_return (r : List Nat) (hr : r.length = 2147483642) :
    get_record (0 :: 0 :: 127 :: 255 :: 255 :: 250 :: r) rec0 =
      some (-2147483648,
        { tnf := 0, type_length := 0, type := some 6, id_length := 0,
          id := none, payload_length := 2147483642, payload := some 6 }) := by
  have hlen : (0 :: 0 :: 127 :: 255 :: 255 :: 250 :: r : List Nat).length =
      2147483648 := by
    simp [hr]
  unfold get_record
  rw [hlen]
  norm_num [uint32ToInt]

/-- Counterexample to C5 as stated: on the 2^31-byte buffer
`[0x00, 0x00, 0x7F, 0xFF, 0xFF, 0xFA]` followed by 2^31 - 6 zero bytes,
`get_record` returns the negative status -2147483648 (an error by the
documented contract) and yet has written every field of the record: the
returned record differs from the input record. -/
theorem c5_partial_record_counterexample :
    get_record
        (0 :: 0 :: 127 :: 255 :: 255 :: 250 :: List.replicate 2147483642 0)
        rec0 =
      some (-2147483648,
        { tnf := 0, type_length := 0, type := some 6, id_length := 0,
          id := none, payload_length := 2147483642, payload := some 6 }) ∧
    (-2147483648 : Int) < 0 ∧
    ({ tnf := 0, type_length := 0, type := some 6, id_length := 0, id := none,
       payload_length := 2147483642, payload := some 6 } : ndef_record) ≠
      rec0 := by
  refine ⟨c5_wrapped_negative_return _ (List.length_replicate _ _),
    by norm_num, by decide⟩

/-- C5 (amended): for buffers shorter than 2^31 bytes, whenever
`get_record` returns a negative status the record structure is left
entirely unchanged.  (On buffers of length ≥ 2^31 the 32-bit wrap of the
consumed-length sum can produce a negative return after the record has
been written — see the counterexample.) -/
theorem c5_no_partial_record :
    ∀ (buf : List Nat) (record : ndef_record) (e : Int) (rec' : ndef_record),
      buf.length < 2147483648 →
      get_record buf record = some (e, rec') → e < 0 → rec' = record := by
  intro buf record e rec' hlen h he
  rcases get_record_spec buf record with hs | hs | ⟨s, hle, hmod, r, hs⟩ <;>
    rw [hs] at h
  · exact absurd h (by simp)
  · simp only [Option.some.injEq, Prod.mk.injEq] at h
    exact h.2.symm
  · simp only [Option.some.injEq, Prod.mk.injEq] at h
    unfold uint32ToInt at h
    obtain ⟨he1, -⟩ := h
    split at he1 <;> omega

/-- Witness for C5 (amended): the empty buffer fails with the truncation
error and the record comes back unchanged. -/
theorem c5_no_partial_record_witness :
    ([] : List Nat).length < 2147483648 ∧
    get_record [] rec0 = some (ERR_REC_BUF_TRUNCATED, rec0) ∧
    ERR_REC_BUF_TRUNCATED < 0 ∧ rec0 = rec0 :=
  ⟨by decide, by decide, by decide,
   c5_no_partial_record [] rec0 ERR_REC_BUF_TRUNCATED rec0
     (by decide) (by decide) (by decide)⟩

/-- C9: under the precondition `option < bitmap_len * 8`,
`is_option_selected` returns true exactly when bit `option % 8` (tested
with mask `1 <<< (option % 8)`) of byte `option / 8` of the bitmap is set;
in particular on the one-byte bitmap `[0b00000101]` index 0 is selected,
index 1 is not, index 2 is. -/
theorem c9_is_option_selected_bit :
    (∀ (bitmap : List Nat) (i : Nat), i < bitmap.length * 8 →
      (is_option_selected bitmap i = true ↔
        Nat.testBit (bitmap.getD (i / 8) 0) (i % 8) = true)) ∧
    is_option_selected [5] 0 = true ∧
    is_option_selected [5] 1 = false ∧
    is_option_selected [5] 2 = true := by
  refine ⟨?_, by decide, by decide, by decide⟩
  intro bitmap i hi
  unfold is_option_selected
  dsimp only
  rw [Nat.one_shiftLeft, Nat.and_two_pow]
  cases h' : Nat.testBit (bitmap.getD (i / 8) 0) (i % 8) <;>
    simp [h', Nat.pos_iff_ne_zero.mp (Nat.two_pow_pos (i % 8))]

/-- Witness for C9: the general bit characterization applied to the bitmap
`[0b00000101]` at index 2. -/
theorem c9_is_option_selected_bit_witness :
    2 < ([5] : List Nat).length * 8 ∧
    (is_option_selected [5] 2 = true ↔
      Nat.testBit (([5] : List Nat).getD (2 / 8) 0) (2 % 8) = true) :=
  ⟨by decide, c9_is_option_selected_bit.1 [5] 2 (by decide)⟩

/-- C10: an NDEF TLV entry declaring value length 0 is indistinguishable,
by return value, from the absence of an NDEF entry: the scan returns 0 for
`[0x03, 0x00, ...]` (whatever follows) just as it does for a buffer with no
NDEF entry such as `[0xFE]`, so a caller following the documented
"length > 0 means found" contract treats both as not-found. -/
theorem c10_empty_ndef_indistinguishable :
    (∀ rest : List Nat,
      get_ndef_tlv_offset (3 :: 0 :: rest) = some (0, some 2)) ∧
    get_ndef_tlv_offset [254] = some (0, none) := by
  constructor
  · intro rest
    unfold get_ndef_tlv_offset
    rw [tlv_loop]
    simp [TLV_TYPE_NULL, TLV_TYPE_TERMINATOR, TLV_TYPE_NDEF]
  · unfold get_ndef_tlv_offset
    rw [tlv_loop]
    simp [TLV_TYPE_NULL, TLV_TYPE_TERMINATOR, TLV_TYPE_NDEF]

end EputUtils
